import Mathlib

/-!
# Verification of the rose-dna struct catalog builder and encoder

Shallow embedding of `src/main.cpp`: the DNA data model (`DNAField`,
`DNAStruct`, `SDNA`), the catalog builders `DNA_add_struct` / `DNA_add_field`,
the field classification performed in `TypedefDeclCallback::run`, the binary
encoder in `main`, and a symmetric decoder for the declared output format.

Byte strings are `List Nat` (each entry one byte).  C `int` values are
modelled as `Nat` and serialized modulo 2^32; the embedding fixes
little-endian as the producer's native byte order.  Sizes and alignments are
in bytes (the C code divides Clang's bit widths by 8 at every query site).
-/

/-- Semantics of `strncpy(dst, src, n)` into a zeroed buffer, where `s` is the
`std::string`'s byte content: bytes of `s` before its first embedded NUL are
copied, at most `n` of them, and the remainder of the `n`-byte destination is
zero-filled.  When `n` or more bytes are copied no terminating NUL is written. -/
def strncpyBuf (s : List Nat) (n : Nat) : List Nat :=
  ((s.takeWhile (fun b => b ≠ 0)).take n) ++
    List.replicate (n - (s.takeWhile (fun b => b ≠ 0)).length) 0

/-- Reading a `char` buffer as a C string (the implicit `char* → std::string`
conversion in the encoder): the bytes strictly before the first NUL. -/
def cstr (buf : List Nat) : List Nat :=
  buf.takeWhile (fun b => b ≠ 0)

/-- Flag bit: this field is a pointer (`DNA_FIELD_IS_POINTER = 1 << 0`). -/
def DNA_FIELD_IS_POINTER : Nat := 1

/-- Flag bit: this field is an array (`DNA_FIELD_IS_ARRAY = 1 << 1`). -/
def DNA_FIELD_IS_ARRAY : Nat := 2

/-- Flag bit: this field is a function pointer (`DNA_FIELD_IS_FUNCTION = 1 << 2`). -/
def DNA_FIELD_IS_FUNCTION : Nat := 4

/-- `DNAField` from `main.cpp`: `name` and `type` are the 64-byte `char`
buffers, the five ints are modelled as `Nat`. -/
structure DNAField where
  name : List Nat
  type : List Nat
  offset : Nat
  size : Nat
  align : Nat
  array : Nat
  flags : Nat
  deriving DecidableEq, Repr

/-- `DNAStruct` from `main.cpp`: 64-byte name buffer, size, field sequence
(`_Fields` together with `_FieldsLen`, modelled as one list). -/
structure DNAStruct where
  name : List Nat
  size : Nat
  fields : List DNAField
  deriving DecidableEq, Repr

/-- `SDNA` from `main.cpp`: `_Types` together with `_TypesLen`. -/
structure SDNA where
  types : List DNAStruct
  deriving DecidableEq, Repr

/-- `DNA_add_struct` on the success path of `realloc`: grow the type array by
one, zero the new entry (`memset`), then `strncpy` the name into its 64-byte
buffer.  `realloc` preserves the existing entries. -/
def DNA_add_struct (dna : SDNA) (name : List Nat) : SDNA :=
  ⟨dna.types ++ [{ name := strncpyBuf name 64, size := 0, fields := [] }]⟩

/-- The zero-initialized field produced by `memset` in `DNA_add_field`. -/
def zeroField : DNAField :=
  { name := List.replicate 64 0, type := List.replicate 64 0,
    offset := 0, size := 0, align := 0, array := 0, flags := 0 }

/-- `DNA_add_field` on the success path of `realloc`: grow the field array by
one, zero the new entry, then `strncpy` the name (the copy bound is
`sizeof(Struct->name) = 64`, equal to the field-name buffer size). -/
def DNA_add_field (s : DNAStruct) (name : List Nat) : DNAStruct :=
  { s with fields := s.fields ++ [{ zeroField with name := strncpyBuf name 64 }] }

/-- Model of the Clang types queried by `TypedefDeclCallback::run`: `prim` is
any non-pointer non-array non-function type (scalar or record) with its
printed name, byte size and byte alignment; `func` is a function type (only
ever used as a pointee); `ptr` is a pointer (a function pointer is
`ptr (func _)`, matching Clang where `isPointerType()` also holds for function
pointers); `arr` is a constant array of `n` elements. -/
inductive CType where
  | prim (name : List Nat) (size : Nat) (align : Nat)
  | func (name : List Nat)
  | ptr (pointee : CType)
  | arr (elem : CType) (n : Nat)
  deriving DecidableEq, Repr

/-- Clang `Type::isPointerType`. -/
def isPointerType : CType → Bool
  | CType.ptr _ => true
  | _ => false

/-- Clang `Type::isFunctionPointerType`: a pointer whose pointee is a function
type. -/
def isFunctionPointerType : CType → Bool
  | CType.ptr (CType.func _) => true
  | _ => false

/-- Clang `Type::isArrayType`. -/
def isArrayType : CType → Bool
  | CType.arr _ _ => true
  | _ => false

/-- Clang `Type::getPointeeType`; total with an inert default on non-pointers
(the transcribed code only queries it on pointers). -/
def pointeeType : CType → CType
  | CType.ptr p => p
  | t => t

/-- Clang `ArrayType::getElementType`; total with an inert default. -/
def elementType : CType → CType
  | CType.arr e _ => e
  | t => t

/-- `getTypeInfo(...).Width / 8`: the byte size.  Pointers are 8 bytes wide in
this model (one fixed target); an array is element count times element size. -/
def typeSize : CType → Nat
  | CType.prim _ s _ => s
  | CType.func _ => 0
  | CType.ptr _ => 8
  | CType.arr e n => n * typeSize e

/-- `getTypeInfo(...).Align / 8`: the byte alignment. -/
def typeAlign : CType → Nat
  | CType.prim _ _ a => a
  | CType.func _ => 0
  | CType.ptr _ => 8
  | CType.arr e _ => typeAlign e

/-- Clang `QualType::getAsString`, as a byte string: primitive and function
types print their name, a pointer appends `" *"`, an array appends its extent
in brackets. -/
def getAsString : CType → List Nat
  | CType.prim nm _ _ => nm
  | CType.func nm => nm
  | CType.ptr p => getAsString p ++ [32, 42]
  | CType.arr e n => getAsString e ++ [91] ++ ((Nat.toDigits 10 n).map Char.toNat) ++ [93]

/-- The `while (AT->getElementType()->isArrayType())` loop of
`TypedefDeclCallback::run`: unwrap array layers down to the innermost
non-array element type. -/
def innermostElem : CType → CType
  | CType.arr e _ => if isArrayType e then innermostElem e else e
  | t => t

/-- Total number of innermost elements of a (possibly nested) array type;
`1` for non-arrays. -/
def elemCount : CType → Nat
  | CType.arr e n => n * elemCount e
  | _ => 1

/-- The per-field body of `TypedefDeclCallback::run` (lines 146-199), given
the field's name, its Clang type and its byte offset: the zero-initialized
field from `DNA_add_field` with `size`, `align`, `offset` and `array = 1`
written, the pointer flags OR-ed in, and the type buffer filled according to
the pointer / array / plain branches. -/
def classifyField (fname : List Nat) (ftype : CType) (off : Nat) : DNAField :=
  let size := typeSize ftype
  let align := typeAlign ftype
  let flags0 :=
    (if isPointerType ftype then DNA_FIELD_IS_POINTER else 0) |||
    (if isFunctionPointerType ftype then DNA_FIELD_IS_FUNCTION else 0)
  if isPointerType ftype || isFunctionPointerType ftype then
    { name := strncpyBuf fname 64,
      type := strncpyBuf (getAsString (pointeeType ftype)) 64,
      offset := off, size := size, align := align, array := 1, flags := flags0 }
  else if isArrayType ftype then
    let e := innermostElem ftype
    let elemSize := typeSize e
    if isPointerType e then
      { name := strncpyBuf fname 64,
        type := strncpyBuf (getAsString (pointeeType e)) 64,
        offset := off, size := size, align := align,
        array := size / elemSize, flags := flags0 ||| DNA_FIELD_IS_POINTER }
    else
      { name := strncpyBuf fname 64,
        type := strncpyBuf (getAsString e) 64,
        offset := off, size := size, align := align,
        array := size / elemSize, flags := flags0 }
  else
    { name := strncpyBuf fname 64,
      type := strncpyBuf (getAsString ftype) 64,
      offset := off, size := size, align := align, array := 1, flags := flags0 }

/-- Outcome of running the match callback when an allocation may fail: the
transcribed code never checks the handles returned by `DNA_add_struct` /
`DNA_add_field`, so a failed `realloc` leads straight to a write through a
null pointer. -/
inductive RunError where
  | derefNull
  deriving DecidableEq, Repr

/-- One field fact handed over by the introspection provider: declared field
name, Clang type, byte offset. -/
structure FieldFact where
  fname : List Nat
  ftype : CType
  off : Nat

/-- The field loop of `TypedefDeclCallback::run` with an allocation oracle
(one `Bool` consumed per `DNA_add_field` call, `true` = `realloc` succeeds).
On failure the very next statement, `Field->size = size`, dereferences the
null handle. -/
def runFields : List Bool → DNAStruct → List FieldFact → Except RunError (DNAStruct × List Bool)
  | oracle, s, [] => Except.ok (s, oracle)
  | oracle, s, f :: rest =>
    if oracle.headD true then
      runFields oracle.tail
        { s with fields := s.fields ++ [classifyField f.fname f.ftype f.off] } rest
    else
      Except.error RunError.derefNull

/-- `TypedefDeclCallback::run` for one typedef'd record declaration, with an
allocation oracle: `DNA_add_struct` consumes the first oracle entry; on
failure the next statement, `Struct->size = ...`, dereferences the null
handle (the code has no check). -/
def runTypedef (oracle : List Bool) (dna : SDNA) (sname : List Nat) (ssize : Nat)
    (facts : List FieldFact) : Except RunError (SDNA × List Bool) :=
  if oracle.headD true then
    match runFields oracle.tail { name := strncpyBuf sname 64, size := ssize, fields := [] } facts with
    | Except.ok (s, rest) => Except.ok (⟨dna.types ++ [s]⟩, rest)
    | Except.error e => Except.error e
  else
    Except.error RunError.derefNull

/-- `WriteWordOut`: append the string's bytes, no terminator. -/
def WriteWordOut (buffer : List Nat) (word : List Nat) : List Nat :=
  buffer ++ word

/-- `WriteStringOut`: append the string's bytes plus one NUL terminator. -/
def WriteStringOut (buffer : List Nat) (word : List Nat) : List Nat :=
  buffer ++ word ++ [0]

/-- The four bytes of an `int` in the producer's native byte order
(little-endian in this model), value taken modulo 2^32. -/
def enc32 (v : Nat) : List Nat :=
  [v % 256, v / 256 % 256, v / 65536 % 256, v / 16777216 % 256]

/-- `WriteIntOut`: append the four native-order bytes of the value. -/
def WriteIntOut (buffer : List Nat) (v : Nat) : List Nat :=
  buffer ++ enc32 v

/-- The bytes "SDNA" (`53 44 4E 41`). -/
def sdnaMagic : List Nat := [83, 68, 78, 65]

/-- The per-field body of the serialization loop in `main` (lines 279-285):
name and type buffers read back as C strings, then the five ints. -/
def encodeField (buffer : List Nat) (f : DNAField) : List Nat :=
  WriteIntOut (WriteIntOut (WriteIntOut (WriteIntOut (WriteIntOut
    (WriteStringOut (WriteStringOut buffer (cstr f.name)) (cstr f.type))
    f.offset) f.size) f.align) f.array) f.flags

/-- The per-struct body of the serialization loop in `main` (lines 273-286). -/
def encodeStruct (buffer : List Nat) (s : DNAStruct) : List Nat :=
  s.fields.foldl encodeField
    (WriteIntOut (WriteIntOut (WriteStringOut buffer (cstr s.name)) s.size) s.fields.length)

/-- The whole serialization of `main` (lines 266-287): magic word, struct
count, then every struct in catalog order. -/
def encodeSDNA (dna : SDNA) : List Nat :=
  dna.types.foldl encodeStruct (WriteIntOut (WriteWordOut [] sdnaMagic) dna.types.length)

/-- Byte layout of one field as the spec format declares it (§6 of the spec):
NUL-terminated name, NUL-terminated type, then offset, size, align, array,
flags as int32. -/
def specFieldBytes (f : DNAField) : List Nat :=
  cstr f.name ++ [0] ++ cstr f.type ++ [0] ++
    enc32 f.offset ++ enc32 f.size ++ enc32 f.align ++ enc32 f.array ++ enc32 f.flags

/-- Byte layout of one struct as the spec format declares it. -/
def specStructBytes (s : DNAStruct) : List Nat :=
  cstr s.name ++ [0] ++ enc32 s.size ++ enc32 s.fields.length ++
    (s.fields.map specFieldBytes).flatten

/-- Byte layout of the whole file as the spec format declares it. -/
def specSDNABytes (dna : SDNA) : List Nat :=
  sdnaMagic ++ enc32 dna.types.length ++ (dna.types.map specStructBytes).flatten

/-- Exit-status logic at the end of `main` (lines 291-308): `-1` when the
output file cannot be opened, `-2` when `fwrite` reports fewer bytes written
than the buffer holds, `0` otherwise. -/
def mainExitStatus (openOk : Bool) (written : Nat) (bufLen : Nat) : Int :=
  if openOk then (if written ≠ bufLen then -2 else 0) else -1

/-- One decoded / abstract field record: the `(name, type, offset, size,
align, array, flags)` tuple of the format, with unbounded strings. -/
structure AbsField where
  name : List Nat
  type : List Nat
  offset : Nat
  size : Nat
  align : Nat
  array : Nat
  flags : Nat
  deriving DecidableEq, Repr

/-- One decoded / abstract struct record. -/
structure AbsStruct where
  name : List Nat
  size : Nat
  fields : List AbsField
  deriving DecidableEq, Repr

/-- Store one abstract field into the bounded DNA storage (what
`DNA_add_field` plus the classifier's buffer writes amount to for given
values): both strings go through `strncpy` into 64-byte buffers. -/
def storeField (f : AbsField) : DNAField :=
  { name := strncpyBuf f.name 64, type := strncpyBuf f.type 64,
    offset := f.offset, size := f.size, align := f.align,
    array := f.array, flags := f.flags }

/-- Store one abstract struct into the bounded DNA storage. -/
def storeStruct (s : AbsStruct) : DNAStruct :=
  { name := strncpyBuf s.name 64, size := s.size, fields := s.fields.map storeField }

/-- Store a whole abstract catalog into the bounded DNA storage. -/
def storeSDNA (cat : List AbsStruct) : SDNA :=
  ⟨cat.map storeStruct⟩

/-- Read one int32 of the declared format: four bytes, producer's native
(little-endian) order. -/
def parseInt32 : List Nat → Option (Nat × List Nat)
  | b0 :: b1 :: b2 :: b3 :: rest => some (b0 + 256 * (b1 + 256 * (b2 + 256 * b3)), rest)
  | _ => none

/-- Read one NUL-terminated string of the declared format. -/
def parseCString : List Nat → Option (List Nat × List Nat)
  | [] => none
  | b :: rest =>
    if b = 0 then some ([], rest)
    else
      match parseCString rest with
      | some (s, r) => some (b :: s, r)
      | none => none

/-- Read one field record of the declared format: name, type, offset, size,
align, array, flags. -/
def parseField (bytes : List Nat) : Option (AbsField × List Nat) :=
  match parseCString bytes with
  | none => none
  | some (nm, r1) =>
  match parseCString r1 with
  | none => none
  | some (tp, r2) =>
  match parseInt32 r2 with
  | none => none
  | some (off, r3) =>
  match parseInt32 r3 with
  | none => none
  | some (sz, r4) =>
  match parseInt32 r4 with
  | none => none
  | some (al, r5) =>
  match parseInt32 r5 with
  | none => none
  | some (ar, r6) =>
  match parseInt32 r6 with
  | none => none
  | some (fl, r7) =>
    some ({ name := nm, type := tp, offset := off, size := sz,
            align := al, array := ar, flags := fl }, r7)

/-- Read `n` consecutive field records. -/
def parseFieldList : Nat → List Nat → Option (List AbsField × List Nat)
  | 0, bytes => some ([], bytes)
  | n + 1, bytes =>
    match parseField bytes with
    | none => none
    | some (f, rest) =>
      match parseFieldList n rest with
      | none => none
      | some (fs, rest2) => some (f :: fs, rest2)

/-- Read one struct record of the declared format: name, size, field count,
then that many field records. -/
def parseStruct (bytes : List Nat) : Option (AbsStruct × List Nat) :=
  match parseCString bytes with
  | none => none
  | some (nm, r1) =>
  match parseInt32 r1 with
  | none => none
  | some (sz, r2) =>
  match parseInt32 r2 with
  | none => none
  | some (cnt, r3) =>
  match parseFieldList cnt r3 with
  | none => none
  | some (fs, r4) => some ({ name := nm, size := sz, fields := fs }, r4)

/-- Read `n` consecutive struct records. -/
def parseStructList : Nat → List Nat → Option (List AbsStruct × List Nat)
  | 0, bytes => some ([], bytes)
  | n + 1, bytes =>
    match parseStruct bytes with
    | none => none
    | some (s, rest) =>
      match parseStructList n rest with
      | none => none
      | some (ss, rest2) => some (s :: ss, rest2)

/-- The symmetric reader of the declared format: check the magic word, read
the struct count, read that many structs, and demand that the input is fully
consumed. -/
def decodeSDNA (bytes : List Nat) : Option (List AbsStruct) :=
  match bytes with
  | 83 :: 68 :: 78 :: 65 :: rest =>
    match parseInt32 rest with
    | none => none
    | some (cnt, r1) =>
      match parseStructList cnt r1 with
      | none => none
      | some (ss, r2) => if r2 = [] then some ss else none
  | _ => none

/-- A byte string that fits the bounded 64-byte name storage with its
terminator and carries no embedded NUL. -/
def wfStr (s : List Nat) : Prop :=
  ¬ 0 ∈ s ∧ s.length ≤ 63

/-- An abstract field whose strings fit the bounded storage and whose int
values are representable as int32 (the storage type in the C code). -/
def wfField (f : AbsField) : Prop :=
  wfStr f.name ∧ wfStr f.type ∧ f.offset < 4294967296 ∧ f.size < 4294967296 ∧
    f.align < 4294967296 ∧ f.array < 4294967296 ∧ f.flags < 4294967296

/-- An abstract struct whose strings fit the bounded storage and whose int
values are representable as int32. -/
def wfStruct (s : AbsStruct) : Prop :=
  wfStr s.name ∧ s.size < 4294967296 ∧ s.fields.length < 4294967296 ∧
    ∀ f ∈ s.fields, wfField f

/-- An abstract catalog whose strings fit the bounded storage and whose int
values are representable as int32. -/
def wfCat (cat : List AbsStruct) : Prop :=
  cat.length < 4294967296 ∧ ∀ s ∈ cat, wfStruct s

instance (s : List Nat) : Decidable (wfStr s) := by unfold wfStr; infer_instance

instance (f : AbsField) : Decidable (wfField f) := by unfold wfField; infer_instance

instance (s : AbsStruct) : Decidable (wfStruct s) := by unfold wfStruct; infer_instance

instance (cat : List AbsStruct) : Decidable (wfCat cat) := by unfold wfCat; infer_instance

lemma takeWhile_ne_zero_eq_self (s : List Nat) (h : ¬ 0 ∈ s) :
    s.takeWhile (fun b => b ≠ 0) = s := by
  rw [List.takeWhile_eq_self_iff]
  intro x hx
  simp only [decide_eq_true_eq]
  exact fun h0 => h (h0 ▸ hx)

lemma cstr_append_zero (s t : List Nat) (h : ¬ 0 ∈ s) :
    cstr (s ++ 0 :: t) = s := by
  induction s with
  | nil => simp [cstr]
  | cons b r ih =>
    simp only [List.mem_cons, not_or] at h
    have hb : decide (b ≠ 0) = true := by
      simp only [decide_eq_true_eq]
      exact fun h0 => h.1 h0.symm
    have ht := ih h.2
    simp only [cstr] at ht ⊢
    rw [List.cons_append, List.takeWhile_cons, hb, if_pos rfl, ht]

lemma strncpyBuf_of_fits (s : List Nat) (h0 : ¬ 0 ∈ s) (hl : s.length ≤ 63) :
    strncpyBuf s 64 = s ++ 0 :: List.replicate (63 - s.length) 0 := by
  rw [strncpyBuf, takeWhile_ne_zero_eq_self s h0]
  rw [List.take_of_length_le (by omega)]
  have hk : 64 - s.length = (63 - s.length) + 1 := by omega
  rw [hk]
  simp [List.replicate_succ]

lemma cstr_strncpyBuf (s : List Nat) (h0 : ¬ 0 ∈ s) (hl : s.length ≤ 63) :
    cstr (strncpyBuf s 64) = s := by
  rw [strncpyBuf_of_fits s h0 hl, cstr_append_zero s _ h0]

lemma parseCString_append (s : List Nat) (h : ¬ 0 ∈ s) :
    ∀ rest : List Nat, parseCString (s ++ 0 :: rest) = some (s, rest) := by
  induction s with
  | nil => intro rest; simp [parseCString]
  | cons b t ih =>
    intro rest
    simp only [List.mem_cons, not_or] at h
    have hb : ¬ b = 0 := fun h0 => h.1 h0.symm
    rw [List.cons_append, parseCString]
    simp [hb, ih h.2 rest]

lemma parseInt32_enc32 (v : Nat) (h : v < 4294967296) :
    ∀ rest : List Nat, parseInt32 (enc32 v ++ rest) = some (v, rest) := by
  intro rest
  simp only [enc32, List.cons_append, List.nil_append, parseInt32]
  congr 1
  congr 1
  omega

lemma encodeField_eq (buf : List Nat) (f : DNAField) :
    encodeField buf f = buf ++ specFieldBytes f := by
  simp [encodeField, specFieldBytes, WriteIntOut, WriteStringOut, List.append_assoc]

lemma foldl_encodeField (fs : List DNAField) :
    ∀ buf : List Nat, fs.foldl encodeField buf = buf ++ (fs.map specFieldBytes).flatten := by
  induction fs with
  | nil => intro buf; simp
  | cons f t ih =>
    intro buf
    simp [List.foldl_cons, encodeField_eq, ih, List.append_assoc]

lemma encodeStruct_eq (buf : List Nat) (s : DNAStruct) :
    encodeStruct buf s = buf ++ specStructBytes s := by
  simp [encodeStruct, foldl_encodeField, specStructBytes, WriteIntOut, WriteStringOut,
    List.append_assoc]

lemma foldl_encodeStruct (ss : List DNAStruct) :
    ∀ buf : List Nat, ss.foldl encodeStruct buf = buf ++ (ss.map specStructBytes).flatten := by
  induction ss with
  | nil => intro buf; simp
  | cons s t ih =>
    intro buf
    simp [List.foldl_cons, encodeStruct_eq, ih, List.append_assoc]

lemma encodeSDNA_eq (dna : SDNA) : encodeSDNA dna = specSDNABytes dna := by
  simp [encodeSDNA, foldl_encodeStruct, specSDNABytes, WriteIntOut, WriteWordOut,
    List.append_assoc]

lemma parseField_round (f : AbsField) (h : wfField f) (rest : List Nat) :
    parseField (specFieldBytes (storeField f) ++ rest) = some (f, rest) := by
  obtain ⟨⟨hn0, hnl⟩, ⟨ht0, htl⟩, ho, hs, ha, har, hf⟩ := h
  rw [specFieldBytes, storeField]
  simp only [cstr_strncpyBuf f.name hn0 hnl, cstr_strncpyBuf f.type ht0 htl,
    List.append_assoc, List.singleton_append, List.cons_append, List.nil_append]
  simp only [parseField, parseCString_append f.name hn0, parseCString_append f.type ht0,
    parseInt32_enc32 f.offset ho, parseInt32_enc32 f.size hs, parseInt32_enc32 f.align ha,
    parseInt32_enc32 f.array har, parseInt32_enc32 f.flags hf]

lemma parseFieldList_round (fs : List AbsField) (h : ∀ f ∈ fs, wfField f) :
    ∀ rest : List Nat,
      parseFieldList fs.length
        (((fs.map storeField).map specFieldBytes).flatten ++ rest) = some (fs, rest) := by
  induction fs with
  | nil => intro rest; simp [parseFieldList]
  | cons f t ih =>
    intro rest
    simp only [List.map_cons, List.flatten_cons, List.length_cons, List.append_assoc]
    rw [parseFieldList]
    simp only [parseField_round f (h f (by simp)),
      ih (fun g hg => h g (by simp [hg]))]

lemma parseStruct_round (s : AbsStruct) (h : wfStruct s) (rest : List Nat) :
    parseStruct (specStructBytes (storeStruct s) ++ rest) = some (s, rest) := by
  obtain ⟨⟨hn0, hnl⟩, hsz, hcnt, hfs⟩ := h
  rw [specStructBytes, storeStruct]
  simp only [cstr_strncpyBuf s.name hn0 hnl, List.length_map, List.append_assoc,
    List.singleton_append, List.cons_append, List.nil_append]
  rw [parseStruct]
  simp only [parseCString_append s.name hn0, parseInt32_enc32 s.size hsz,
    parseInt32_enc32 s.fields.length hcnt, parseFieldList_round s.fields hfs rest]

lemma parseStructList_round (ss : List AbsStruct) (h : ∀ s ∈ ss, wfStruct s) :
    ∀ rest : List Nat,
      parseStructList ss.length
        (((ss.map storeStruct).map specStructBytes).flatten ++ rest) = some (ss, rest) := by
  induction ss with
  | nil => intro rest; simp [parseStructList]
  | cons s t ih =>
    intro rest
    simp only [List.map_cons, List.flatten_cons, List.length_cons, List.append_assoc]
    rw [parseStructList]
    simp only [parseStruct_round s (h s (by simp)),
      ih (fun u hu => h u (by simp [hu]))]

lemma decode_encode_store (cat : List AbsStruct) (h : wfCat cat) :
    decodeSDNA (encodeSDNA (storeSDNA cat)) = some cat := by
  obtain ⟨hlen, hall⟩ := h
  rw [encodeSDNA_eq, specSDNABytes]
  have hmagic : sdnaMagic ++ enc32 (storeSDNA cat).types.length ++
      ((storeSDNA cat).types.map specStructBytes).flatten =
      83 :: 68 :: 78 :: 65 :: (enc32 cat.length ++
        (((cat.map storeStruct).map specStructBytes).flatten ++ [])) := by
    simp [sdnaMagic, storeSDNA, List.append_assoc]
  rw [hmagic, decodeSDNA]
  simp only [parseInt32_enc32 cat.length hlen, parseStructList_round cat hall []]
  simp

lemma innermostElem_not_array (t : CType) : isArrayType (innermostElem t) = false := by
  induction t with
  | prim nm s a => rfl
  | func nm => rfl
  | ptr p ih => rfl
  | arr e n ih =>
    rw [innermostElem]
    by_cases he : isArrayType e = true
    · simp [he, ih]
    · simp only [Bool.not_eq_true] at he
      simp [he]

lemma elemCount_of_not_array (t : CType) (h : isArrayType t = false) : elemCount t = 1 := by
  cases t with
  | prim nm s a => rfl
  | func nm => rfl
  | ptr p => rfl
  | arr e n => simp [isArrayType] at h

lemma typeSize_innermost (t : CType) (h : isArrayType t = true) :
    typeSize t = elemCount t * typeSize (innermostElem t) := by
  induction t with
  | prim nm s a => simp [isArrayType] at h
  | func nm => simp [isArrayType] at h
  | ptr p ih => simp [isArrayType] at h
  | arr e n ih =>
    rw [innermostElem, typeSize, elemCount]
    by_cases he : isArrayType e = true
    · rw [if_pos he, ih he, Nat.mul_assoc]
    · simp only [Bool.not_eq_true] at he
      rw [if_neg (by simp [he]), elemCount_of_not_array e he]
      ring

lemma isPointerType_innermost_arr (e : CType) (n : Nat)
    (h : isPointerType (innermostElem (CType.arr e n)) = true) :
    ∃ q, innermostElem (CType.arr e n) = CType.ptr q := by
  cases hi : innermostElem (CType.arr e n) with
  | prim nm s a => rw [hi] at h; simp [isPointerType] at h
  | func nm => rw [hi] at h; simp [isPointerType] at h
  | ptr q => exact ⟨q, rfl⟩
  | arr e2 n2 =>
    have := innermostElem_not_array (CType.arr e n)
    rw [hi] at this
    simp [isArrayType] at this

lemma classifyField_ptr_eq (fname : List Nat) (p : CType) (off : Nat) :
    classifyField fname (CType.ptr p) off =
      { name := strncpyBuf fname 64, type := strncpyBuf (getAsString p) 64,
        offset := off, size := 8, align := 8, array := 1,
        flags := DNA_FIELD_IS_POINTER |||
          (if isFunctionPointerType (CType.ptr p) then DNA_FIELD_IS_FUNCTION else 0) } := by
  rfl

lemma classifyField_arr_ptr_eq (fname : List Nat) (e : CType) (n : Nat) (off : Nat)
    (hp : isPointerType (innermostElem (CType.arr e n)) = true) :
    classifyField fname (CType.arr e n) off =
      { name := strncpyBuf fname 64,
        type := strncpyBuf (getAsString (pointeeType (innermostElem (CType.arr e n)))) 64,
        offset := off, size := typeSize (CType.arr e n), align := typeAlign (CType.arr e n),
        array := typeSize (CType.arr e n) / typeSize (innermostElem (CType.arr e n)),
        flags := DNA_FIELD_IS_POINTER } := by
  have h1 : isPointerType (CType.arr e n) = false := rfl
  have h2 : isFunctionPointerType (CType.arr e n) = false := rfl
  have h3 : isArrayType (CType.arr e n) = true := rfl
  simp [classifyField, h1, h2, h3, hp, DNA_FIELD_IS_POINTER]

lemma classifyField_arr_nonptr_eq (fname : List Nat) (e : CType) (n : Nat) (off : Nat)
    (hp : isPointerType (innermostElem (CType.arr e n)) = false) :
    classifyField fname (CType.arr e n) off =
      { name := strncpyBuf fname 64,
        type := strncpyBuf (getAsString (innermostElem (CType.arr e n))) 64,
        offset := off, size := typeSize (CType.arr e n), align := typeAlign (CType.arr e n),
        array := typeSize (CType.arr e n) / typeSize (innermostElem (CType.arr e n)),
        flags := 0 } := by
  have h1 : isPointerType (CType.arr e n) = false := rfl
  have h2 : isFunctionPointerType (CType.arr e n) = false := rfl
  have h3 : isArrayType (CType.arr e n) = true := rfl
  simp [classifyField, h1, h2, h3, hp]

lemma classifyField_plain_eq (fname : List Nat) (t : CType) (off : Nat)
    (h1 : isPointerType t = false) (h2 : isFunctionPointerType t = false)
    (h3 : isArrayType t = false) :
    classifyField fname t off =
      { name := strncpyBuf fname 64, type := strncpyBuf (getAsString t) 64,
        offset := off, size := typeSize t, align := typeAlign t, array := 1, flags := 0 } := by
  simp [classifyField, h1, h2, h3]

/-- Claim C1: the encoder output is exactly the four ASCII bytes "SDNA" with
no terminator, then an int32 struct count, then for every struct in catalog
insertion order its name as raw bytes plus one 0x00 terminator, an int32
size, an int32 field count, and for every field in order its NUL-terminated
name, NUL-terminated type, and the five int32 values offset, size, align,
array, flags; every int32 occupies 4 bytes in the producer's native byte
order. -/
theorem C1_encoded_byte_layout :
    (∀ v : Nat, (enc32 v).length = 4) ∧
    ∀ dna : SDNA,
      encodeSDNA dna =
        sdnaMagic ++ enc32 dna.types.length ++
          (dna.types.map (fun s =>
            cstr s.name ++ [0] ++ enc32 s.size ++ enc32 s.fields.length ++
              (s.fields.map (fun f =>
                cstr f.name ++ [0] ++ cstr f.type ++ [0] ++
                  enc32 f.offset ++ enc32 f.size ++ enc32 f.align ++
                  enc32 f.array ++ enc32 f.flags)).flatten)).flatten := by
  refine ⟨fun v => rfl, fun dna => ?_⟩
  rw [encodeSDNA_eq]
  rfl

/-- Claim C2: for every catalog whose struct and field names and type strings
contain no embedded NUL and fit the bounded name storage (length at most 63,
so the 64-byte buffer keeps a terminator), and whose int values are int32
representable, encoding the stored catalog and decoding the bytes with the
symmetric reader of the declared format yields the identical struct count,
struct names, struct sizes, field counts, and per-field (name, type, offset,
size, align, array, flags) tuples, in the original insertion order. -/
theorem C2_encode_decode_roundtrip (cat : List AbsStruct) (h : wfCat cat) :
    decodeSDNA (encodeSDNA (storeSDNA cat)) = some cat :=
  decode_encode_store cat h

/-- Witness for C2 at a concrete one-struct, one-field catalog. -/
theorem C2_encode_decode_roundtrip_witness :
    wfCat [⟨[86, 51], 12, [⟨[120], [102], 0, 4, 4, 1, 0⟩]⟩] ∧
    decodeSDNA (encodeSDNA (storeSDNA [⟨[86, 51], 12, [⟨[120], [102], 0, 4, 4, 1, 0⟩]⟩])) =
      some [⟨[86, 51], 12, [⟨[120], [102], 0, 4, 4, 1, 0⟩]⟩] :=
  ⟨by decide, C2_encode_decode_roundtrip [⟨[86, 51], 12, [⟨[120], [102], 0, 4, 4, 1, 0⟩]⟩]
    (by decide)⟩

/-- Claim C3: for every non-pointer array field, classification unwraps
nested array dimensions down to the innermost non-array element type and
sets array = totalByteSize / elementByteSize using the innermost element's
byte size, so all dimensions collapse to one multiplicity (when the innermost
element has nonzero size the quotient is exactly the total element count),
and the stored type equals the innermost element's name when that element is
not a pointer (whenever the name fits the bounded 64-byte storage). -/
theorem C3_array_collapse (fname : List Nat) (off : Nat) (ftype : CType)
    (h : isArrayType ftype = true) :
    isArrayType (innermostElem ftype) = false ∧
    (classifyField fname ftype off).array =
      typeSize ftype / typeSize (innermostElem ftype) ∧
    (0 < typeSize (innermostElem ftype) →
      (classifyField fname ftype off).array = elemCount ftype) ∧
    (isPointerType (innermostElem ftype) = false →
      ¬ 0 ∈ getAsString (innermostElem ftype) →
      (getAsString (innermostElem ftype)).length ≤ 63 →
      cstr (classifyField fname ftype off).type = getAsString (innermostElem ftype)) := by
  cases ftype with
  | prim nm s a => simp [isArrayType] at h
  | func nm => simp [isArrayType] at h
  | ptr p => simp [isArrayType] at h
  | arr e n =>
    refine ⟨innermostElem_not_array _, ?_, ?_, ?_⟩
    · by_cases hp : isPointerType (innermostElem (CType.arr e n)) = true
      · rw [classifyField_arr_ptr_eq fname e n off hp]
      · rw [classifyField_arr_nonptr_eq fname e n off (by simpa using hp)]
    · intro hpos
      have harr : (classifyField fname (CType.arr e n) off).array =
          typeSize (CType.arr e n) / typeSize (innermostElem (CType.arr e n)) := by
        by_cases hp : isPointerType (innermostElem (CType.arr e n)) = true
        · rw [classifyField_arr_ptr_eq fname e n off hp]
        · rw [classifyField_arr_nonptr_eq fname e n off (by simpa using hp)]
      rw [harr, typeSize_innermost _ h, Nat.mul_div_cancel _ hpos]
    · intro hp h0 hl
      rw [classifyField_arr_nonptr_eq fname e n off hp]
      exact cstr_strncpyBuf _ h0 hl

/-- Witness for C3 at the field `int x[2][3]`: the classification collapses
both dimensions into array = 6 and stores the innermost element name "int". -/
theorem C3_array_collapse_witness :
    (classifyField [120] (CType.arr (CType.arr (CType.prim [105, 110, 116] 4 4) 3) 2) 0).array
      = 6 ∧
    cstr (classifyField [120]
      (CType.arr (CType.arr (CType.prim [105, 110, 116] 4 4) 3) 2) 0).type
      = [105, 110, 116] := by
  have c := C3_array_collapse [120] 0
    (CType.arr (CType.arr (CType.prim [105, 110, 116] 4 4) 3) 2) rfl
  exact ⟨(c.2.2.1 (by decide)).trans (by decide),
    (c.2.2.2 (by decide) (by decide) (by decide)).trans (by decide)⟩

/-- Claim C4: for every field that is itself a (non-array) pointer or
function pointer, classification takes the pointer branch in precedence over
the array branch: the field is never treated as an array even if its pointee
is an array type (the statement quantifies over every pointee, array types
included), the IsPointer flag is set (additionally IsFunctionPointer for a
function pointer), the stored type is the pointee's name rather than pointer
syntax, and array stays 1. -/
theorem C4_pointer_precedence (fname : List Nat) (off : Nat) (p : CType) :
    (classifyField fname (CType.ptr p) off).array = 1 ∧
    (classifyField fname (CType.ptr p) off).flags &&& DNA_FIELD_IS_POINTER ≠ 0 ∧
    (isFunctionPointerType (CType.ptr p) = true →
      (classifyField fname (CType.ptr p) off).flags &&& DNA_FIELD_IS_FUNCTION ≠ 0) ∧
    (classifyField fname (CType.ptr p) off).type = strncpyBuf (getAsString p) 64 ∧
    (¬ 0 ∈ getAsString p → (getAsString p).length ≤ 63 →
      cstr (classifyField fname (CType.ptr p) off).type = getAsString p) := by
  rw [classifyField_ptr_eq]
  by_cases hf : isFunctionPointerType (CType.ptr p) = true
  · rw [if_pos hf]
    exact ⟨rfl,
      (by decide :
        (DNA_FIELD_IS_POINTER ||| DNA_FIELD_IS_FUNCTION) &&& DNA_FIELD_IS_POINTER ≠ 0),
      fun _ => (by decide :
        (DNA_FIELD_IS_POINTER ||| DNA_FIELD_IS_FUNCTION) &&& DNA_FIELD_IS_FUNCTION ≠ 0),
      rfl, fun h0 hl => cstr_strncpyBuf _ h0 hl⟩
  · rw [if_neg hf]
    exact ⟨rfl,
      (by decide : (DNA_FIELD_IS_POINTER ||| (0 : Nat)) &&& DNA_FIELD_IS_POINTER ≠ 0),
      fun hc => absurd hc hf, rfl,
      fun h0 hl => cstr_strncpyBuf _ h0 hl⟩

/-- Witness for C4 at the fields `Node *next` (a record pointer), a pointer
to the array type `int[3]`, and the function pointer `void (*f)()`. -/
theorem C4_pointer_precedence_witness :
    (classifyField [110] (CType.ptr (CType.prim [78, 111, 100, 101] 16 8)) 0).array = 1 ∧
    cstr (classifyField [110] (CType.ptr (CType.prim [78, 111, 100, 101] 16 8)) 0).type
      = [78, 111, 100, 101] ∧
    (classifyField [97] (CType.ptr (CType.arr (CType.prim [105, 110, 116] 4 4) 3)) 0).array
      = 1 ∧
    (classifyField [102] (CType.ptr (CType.func [118, 111, 105, 100])) 0).flags &&&
      DNA_FIELD_IS_FUNCTION ≠ 0 := by
  have c1 := C4_pointer_precedence [110] 0 (CType.prim [78, 111, 100, 101] 16 8)
  have c2 := C4_pointer_precedence [97] 0 (CType.arr (CType.prim [105, 110, 116] 4 4) 3)
  have c3 := C4_pointer_precedence [102] 0 (CType.func [118, 111, 105, 100])
  exact ⟨c1.1, (c1.2.2.2.2 (by decide) (by decide)).trans (by decide), c2.1,
    c3.2.2.1 (by decide)⟩

/-- Claim C5: for every array field whose innermost element type is a
pointer, classification goes through the array branch (the field's own type
is an array, not a pointer): the IsPointer flag is set, array equals the
number of pointer elements, and the stored type equals the pointee name of
one element (the pointee of the element, not of the array), whenever that
name fits the bounded 64-byte storage. -/
theorem C5_pointer_element_array (fname : List Nat) (off : Nat) (ftype : CType)
    (h : isArrayType ftype = true)
    (hp : isPointerType (innermostElem ftype) = true) :
    (classifyField fname ftype off).flags &&& DNA_FIELD_IS_POINTER ≠ 0 ∧
    (classifyField fname ftype off).array = elemCount ftype ∧
    (¬ 0 ∈ getAsString (pointeeType (innermostElem ftype)) →
      (getAsString (pointeeType (innermostElem ftype))).length ≤ 63 →
      cstr (classifyField fname ftype off).type =
        getAsString (pointeeType (innermostElem ftype))) := by
  cases ftype with
  | prim nm s a => simp [isArrayType] at h
  | func nm => simp [isArrayType] at h
  | ptr p => simp [isArrayType] at h
  | arr e n =>
    rw [classifyField_arr_ptr_eq fname e n off hp]
    obtain ⟨q, hq⟩ := isPointerType_innermost_arr e n hp
    have hts : typeSize (innermostElem (CType.arr e n)) = 8 := by rw [hq]; rfl
    refine ⟨(by decide : DNA_FIELD_IS_POINTER &&& DNA_FIELD_IS_POINTER ≠ 0), ?_,
      fun h0 hl => cstr_strncpyBuf _ h0 hl⟩
    rw [typeSize_innermost _ h, hts, Nat.mul_div_cancel _ (by decide)]

/-- Witness for C5 at the field `Node *links[4]`: four pointers, IsPointer
set, array = 4, stored type is the pointee name "Node". -/
theorem C5_pointer_element_array_witness :
    (classifyField [108] (CType.arr (CType.ptr (CType.prim [78, 111, 100, 101] 16 8)) 4) 0).flags
      &&& DNA_FIELD_IS_POINTER ≠ 0 ∧
    (classifyField [108] (CType.arr (CType.ptr (CType.prim [78, 111, 100, 101] 16 8)) 4) 0).array
      = 4 ∧
    cstr (classifyField [108]
      (CType.arr (CType.ptr (CType.prim [78, 111, 100, 101] 16 8)) 4) 0).type
      = [78, 111, 100, 101] := by
  have c := C5_pointer_element_array [108] 0
    (CType.arr (CType.ptr (CType.prim [78, 111, 100, 101] 16 8)) 4) rfl (by decide)
  exact ⟨c.1, c.2.1.trans (by decide), (c.2.2 (by decide) (by decide)).trans (by decide)⟩

/-- Counterexample to claim C6 as stated: for a 70-byte name consisting of
70 times 'A' (longer than the bounded maximum under any reading), the stored
64-byte buffer is the first 64 bytes with no terminating NUL anywhere in it,
so it is not "the string truncated to the maximum plus a terminator", whether
the maximum is read as 63 or as 64. -/
theorem C6_truncation_counterexample :
    strncpyBuf (List.replicate 70 65) 64 = List.replicate 64 65 ∧
    ¬ 0 ∈ strncpyBuf (List.replicate 70 65) 64 ∧
    strncpyBuf (List.replicate 70 65) 64 ≠ (List.replicate 70 65).take 63 ++ [0] ∧
    strncpyBuf (List.replicate 70 65) 64 ≠ (List.replicate 70 65).take 64 ++ [0] := by
  exact ⟨by decide, by decide, by decide, by decide⟩

/-- Claim C6 as amended: for every NUL-free name/type string, a string of
length at most 63 is stored unchanged followed by a NUL terminator and zero
padding (so reading it back yields the string itself), while a string of
length 64 or more is stored as its first 64 bytes with no terminator written
into the 64-byte buffer; in neither case is an error raised (storage is
total). -/
theorem C6_truncation_amended (s : List Nat) (h0 : ¬ 0 ∈ s) :
    (s.length ≤ 63 →
      strncpyBuf s 64 = s ++ 0 :: List.replicate (63 - s.length) 0 ∧
      cstr (strncpyBuf s 64) = s) ∧
    (64 ≤ s.length →
      strncpyBuf s 64 = s.take 64 ∧ ¬ 0 ∈ strncpyBuf s 64) := by
  constructor
  · intro hl
    exact ⟨strncpyBuf_of_fits s h0 hl, cstr_strncpyBuf s h0 hl⟩
  · intro hl
    have hs : strncpyBuf s 64 = s.take 64 := by
      rw [strncpyBuf, takeWhile_ne_zero_eq_self s h0]
      have hz : 64 - s.length = 0 := by omega
      rw [hz]
      simp
    refine ⟨hs, ?_⟩
    rw [hs]
    intro hmem
    exact h0 (List.take_subset 64 s hmem)

/-- Witness for the amended C6 at a 70-byte string of 'B's (truncated with no
terminator stored) and at the short name "Vec3" (stored unchanged). -/
theorem C6_truncation_amended_witness :
    (strncpyBuf (List.replicate 70 66) 64 = (List.replicate 70 66).take 64 ∧
      ¬ 0 ∈ strncpyBuf (List.replicate 70 66) 64) ∧
    cstr (strncpyBuf [86, 101, 99, 51] 64) = [86, 101, 99, 51] :=
  ⟨(C6_truncation_amended (List.replicate 70 66) (by decide)).2 (by decide),
    ((C6_truncation_amended [86, 101, 99, 51] (by decide)).1 (by decide)).2⟩

/-- Claim C7 evaluated on the code: when growing the struct sequence or a
struct's field sequence fails, the transcribed `TypedefDeclCallback::run`
does not surface the null handle returned by `DNA_add_struct` /
`DNA_add_field`; it dereferences it on the very next statement
(`Struct->size = ...`, `Field->size = ...`).  The run therefore ends in a
null-pointer dereference instead of an orderly abort, contradicting the
claim's required behavior. -/
theorem C7_alloc_failure_dereferences_null :
    runTypedef [false] ⟨[]⟩ [84] 4 [] = Except.error RunError.derefNull ∧
    runTypedef [true, false] ⟨[]⟩ [84] 8
      [⟨[120], CType.prim [105, 110, 116] 4 4, 0⟩] = Except.error RunError.derefNull :=
  ⟨rfl, rfl⟩

/-- Claim C8: the process exit status distinguishes the three outcomes
pairwise: success maps to 0, failure to open the output file to -1, and a
short write (fewer bytes written than the encoded buffer contains) to -2. -/
theorem C8_exit_status_distinct (n w : Nat) (h : w ≠ n) :
    mainExitStatus true n n = 0 ∧
    mainExitStatus true w n = -2 ∧
    mainExitStatus false w n = -1 ∧
    mainExitStatus true n n ≠ mainExitStatus true w n ∧
    mainExitStatus true n n ≠ mainExitStatus false w n ∧
    mainExitStatus true w n ≠ mainExitStatus false w n := by
  simp [mainExitStatus, h]

/-- Witness for C8 with a 4-byte buffer and a 0-byte short write. -/
theorem C8_exit_status_distinct_witness :
    mainExitStatus true 4 4 = 0 ∧
    mainExitStatus true 0 4 = -2 ∧
    mainExitStatus false 0 4 = -1 ∧
    mainExitStatus true 4 4 ≠ mainExitStatus true 0 4 ∧
    mainExitStatus true 4 4 ≠ mainExitStatus false 0 4 ∧
    mainExitStatus true 0 4 ≠ mainExitStatus false 0 4 :=
  C8_exit_status_distinct 4 0 (by decide)

/-- Claim C9: no operation ever sets the IsArray flag: for every field entry
produced by classification, including array fields and arrays of pointers,
flags AND DNA_FIELD_IS_ARRAY is 0, and only the IsPointer and
IsFunctionPointer bits are ever populated. -/
theorem C9_is_array_flag_never_set (fname : List Nat) (ftype : CType) (off : Nat) :
    (classifyField fname ftype off).flags &&& DNA_FIELD_IS_ARRAY = 0 ∧
    (classifyField fname ftype off).flags &&&
      (DNA_FIELD_IS_POINTER ||| DNA_FIELD_IS_FUNCTION) =
      (classifyField fname ftype off).flags := by
  cases ftype with
  | prim nm s a =>
    rw [classifyField_plain_eq fname (CType.prim nm s a) off rfl rfl rfl]
    exact ⟨(by decide : (0 : Nat) &&& DNA_FIELD_IS_ARRAY = 0),
      (by decide : (0 : Nat) &&& (DNA_FIELD_IS_POINTER ||| DNA_FIELD_IS_FUNCTION) = 0)⟩
  | func nm =>
    rw [classifyField_plain_eq fname (CType.func nm) off rfl rfl rfl]
    exact ⟨(by decide : (0 : Nat) &&& DNA_FIELD_IS_ARRAY = 0),
      (by decide : (0 : Nat) &&& (DNA_FIELD_IS_POINTER ||| DNA_FIELD_IS_FUNCTION) = 0)⟩
  | ptr p =>
    rw [classifyField_ptr_eq]
    by_cases hf : isFunctionPointerType (CType.ptr p) = true
    · rw [if_pos hf]
      exact ⟨(by decide :
          (DNA_FIELD_IS_POINTER ||| DNA_FIELD_IS_FUNCTION) &&& DNA_FIELD_IS_ARRAY = 0),
        (by decide : (DNA_FIELD_IS_POINTER ||| DNA_FIELD_IS_FUNCTION) &&&
          (DNA_FIELD_IS_POINTER ||| DNA_FIELD_IS_FUNCTION) =
          DNA_FIELD_IS_POINTER ||| DNA_FIELD_IS_FUNCTION)⟩
    · rw [if_neg hf]
      exact ⟨(by decide : (DNA_FIELD_IS_POINTER ||| (0 : Nat)) &&& DNA_FIELD_IS_ARRAY = 0),
        (by decide : (DNA_FIELD_IS_POINTER ||| (0 : Nat)) &&&
          (DNA_FIELD_IS_POINTER ||| DNA_FIELD_IS_FUNCTION) =
          DNA_FIELD_IS_POINTER ||| (0 : Nat))⟩
  | arr e n =>
    by_cases hp : isPointerType (innermostElem (CType.arr e n)) = true
    · rw [classifyField_arr_ptr_eq _ _ _ _ hp]
      exact ⟨(by decide : DNA_FIELD_IS_POINTER &&& DNA_FIELD_IS_ARRAY = 0),
        (by decide : DNA_FIELD_IS_POINTER &&&
          (DNA_FIELD_IS_POINTER ||| DNA_FIELD_IS_FUNCTION) = DNA_FIELD_IS_POINTER)⟩
    · rw [classifyField_arr_nonptr_eq _ _ _ _ (by simpa using hp)]
      exact ⟨(by decide : (0 : Nat) &&& DNA_FIELD_IS_ARRAY = 0),
        (by decide : (0 : Nat) &&& (DNA_FIELD_IS_POINTER ||| DNA_FIELD_IS_FUNCTION) = 0)⟩

/-- Claim C10: every successful DNA_add_struct appends exactly one
zero-initialized struct entry (carrying the copied name) at the end of the
catalog and leaves every previously appended struct entry unchanged; every
successful DNA_add_field appends exactly one zero-initialized field entry at
the end of the struct and leaves the struct's name, size, and every
previously appended field entry unchanged. -/
theorem C10_append_frame (dna : SDNA) (sname : List Nat) (s : DNAStruct)
    (fname : List Nat) :
    (DNA_add_struct dna sname).types.length = dna.types.length + 1 ∧
    (DNA_add_struct dna sname).types.take dna.types.length = dna.types ∧
    (DNA_add_struct dna sname).types.getLast? =
      some { name := strncpyBuf sname 64, size := 0, fields := [] } ∧
    (DNA_add_field s fname).name = s.name ∧
    (DNA_add_field s fname).size = s.size ∧
    (DNA_add_field s fname).fields.length = s.fields.length + 1 ∧
    (DNA_add_field s fname).fields.take s.fields.length = s.fields ∧
    (DNA_add_field s fname).fields.getLast? =
      some { zeroField with name := strncpyBuf fname 64 } := by
  refine ⟨?_, ?_, ?_, rfl, rfl, ?_, ?_, ?_⟩
  · simp [DNA_add_struct]
  · simp [DNA_add_struct, List.take_left]
  · simp [DNA_add_struct]
  · simp [DNA_add_field]
  · simp [DNA_add_field, List.take_left]
  · simp [DNA_add_field]
